import Mathlib

/-!
Shallow embedding of `plane_stress/optproblems/archive/compliance_minimization.py`
(class `ComplianceMinimization`).

Conventions of the embedding:

* Python floats are modelled as exact rationals (`ℚ`); the float literal
  `0.4` is the rational `2/5`.
* The external compiled kernels of the `plane_stress` module
  (`computenzpattern`, `computemass`, `computemassderiv`, `computekmat`,
  `computekmatderiv`) and the scipy sparse factorization are external
  collaborators, not code of this file's source; the evaluator is
  parametric in a `Kernel` record holding them.  A buffer that a kernel
  fills in place (`rowp`, `cols`, `Kvals`, `dmdx`) is modelled by the
  kernel returning the written contents; the length of the preallocated
  `cols` output buffer is kept as an explicit kernel argument because the
  code's two-pass pattern computation depends on it.
* `scipy.sparse.linalg.dsolve.factorized` raises an exception on a
  singular matrix; this is modelled as an `Option`: `none` is the raised
  exception, which the evaluator methods propagate as `Except.error ()`.
* `np.sqrt` of the squared node distance is irrational in general; the
  embedding takes the distance table `d` as a parameter together with the
  predicate `IsSqrtDist` stating that `d` is the nonnegative square root
  of the squared Euclidean distance `np.dot(X[i]-X[j], X[i]-X[j])`,
  exactly the quantity the source computes.
* Design-space vectors (`x`, `rho`, `dmdx`, `dKdrho`, one entry per node)
  are `Fin n → ℚ` where `n` is the node count; DOF-space vectors
  (`force`, `u`) are `List ℚ`.  The source computes the node count as
  `np.max(conn) + 1`; the embedding takes it as the index type of the
  coordinate array `X`.
* Python methods mutate `self`; each method is embedded as a function
  from the state to a (result, new state) pair, the new state recording
  exactly the fields the method body assigns.
-/

open BigOperators

/-- Squared Euclidean distance `np.dot(X[i,:] - X[j,:], X[i,:] - X[j,:])`
between nodes `i` and `j` of the coordinate array `X`. -/
def dist2 {n : Nat} (X : Fin n → ℚ × ℚ) (i j : Fin n) : ℚ :=
  ((X i).1 - (X j).1) * ((X i).1 - (X j).1) +
    ((X i).2 - (X j).2) * ((X i).2 - (X j).2)

/-- `d` is the table of values `np.sqrt(np.dot(X[i,:]-X[j,:], X[i,:]-X[j,:]))`:
nonnegative, with square equal to the squared Euclidean distance. -/
def IsSqrtDist {n : Nat} (X : Fin n → ℚ × ℚ) (d : Fin n → Fin n → ℚ) : Prop :=
  ∀ i j, 0 ≤ d i j ∧ d i j * d i j = dist2 X i j

instance {n : Nat} (X : Fin n → ℚ × ℚ) (d : Fin n → Fin n → ℚ) :
    Decidable (IsSqrtDist X d) :=
  decidable_of_iff (∀ i j, 0 ≤ d i j ∧ d i j * d i j = dist2 X i j) Iff.rfl

/-- Un-normalized filter weight of node `j` in row `i`: the loop body
appends `(r0 - r)/r0` when the node distance `r` satisfies `r < r0`
(the KDTree ball query pre-selects `r ≤ r0` and the loop keeps the
strict ones, so the net condition is `r < r0`); an entry never appended
stays `0` in the lil matrix. -/
def rowW {n : Nat} (d : Fin n → Fin n → ℚ) (r0 : ℚ) (i j : Fin n) : ℚ :=
  if d i j < r0 then (r0 - d i j) / r0 else 0

/-- `np.sum(w)` over row `i` (entries not appended contribute 0). -/
def rowSum {n : Nat} (d : Fin n → Fin n → ℚ) (r0 : ℚ) (i : Fin n) : ℚ :=
  ∑ j, rowW d r0 i j

/-- The filter matrix `F`: each row is normalized by `w /= np.sum(w)`.
When a row is empty (possible only for `r0 ≤ 0`) numpy divides the empty
array by `0.0` and the row stays identically zero; rational division by
zero yields the same all-zero row. -/
def filterF {n : Nat} (d : Fin n → Fin n → ℚ) (r0 : ℚ) (i j : Fin n) : ℚ :=
  rowW d r0 i j / rowSum d r0 i

/-- `np.max(vars) + 1`, the number of degrees of freedom (constrained
slots carry negative sentinels and never realize the maximum). -/
def nvarsOf (vs : List (List Int)) : Nat :=
  ((vs.flatten.foldl max (vs.flatten.headD 0)) + 1).toNat

/-- `np.dot` of two DOF-space vectors. -/
def dotL (a b : List ℚ) : ℚ := (List.zipWith (fun p q => p * q) a b).sum

/-- Sparse matrix-vector product `F.dot x` of the filter with a design
vector. -/
def Fapply {n : Nat} (F : Fin n → Fin n → ℚ) (x : Fin n → ℚ) : Fin n → ℚ :=
  fun i => ∑ j, F i j * x j

/-- The external collaborators: the compiled `plane_stress` kernels and
the scipy direct factorization.  `computenzpattern` receives the length
of the `cols` output buffer it was handed (its result may depend on it);
it returns the non-zero count and the contents written into the `rowp`
and `cols` buffers, as functions of the buffer position.
`factorized` receives the csc matrix as its csr data `(Kvals, cols,
rowp, nvars)` and returns a solve operator, or `none` for the exception
scipy raises on a singular matrix. -/
structure Kernel (n : Nat) where
  computenzpattern :
    List (List Nat) → List (List Int) → Nat → Nat × (Nat → Int) × (Nat → Int)
  computemass : List (List Nat) → (Fin n → ℚ × ℚ) → (Fin n → ℚ) → ℚ
  computemassderiv : List (List Nat) → (Fin n → ℚ × ℚ) → Fin n → ℚ
  computekmat :
    List (List Nat) → List (List Int) → (Fin n → ℚ × ℚ) → ℚ →
      List (List ℚ) → (Fin n → ℚ) → List Int → List Int → List ℚ
  computekmatderiv :
    List (List Nat) → List (List Int) → (Fin n → ℚ × ℚ) → ℚ →
      List (List ℚ) → (Fin n → ℚ) → List ℚ → List ℚ → Fin n → ℚ
  factorized : List ℚ × List Int × List Int × Nat → Option (List ℚ → List ℚ)

/-- The fields of a `ComplianceMinimization` object.  `Kmat`, `LU` and
`u` do not exist on the Python object until the first `compliance` call
assigns them; the embedding gives them inert initial values at
construction and every theorem about the cache quantifies over their
contents. -/
structure PSState (n : Nat) where
  conn : List (List Nat)
  vars : List (List Int)
  X : Fin n → ℚ × ℚ
  force : List ℚ
  qval : ℚ
  Cmat : List (List ℚ)
  nvars : Nat
  rowp : List Int
  cols : List Int
  Kvals : List ℚ
  total_mass : ℚ
  F : Fin n → Fin n → ℚ
  Kmat : List ℚ × List Int × List Int
  LU : List ℚ → List ℚ
  u : List ℚ

/-- `__init__`.  Returns the constructed state together with the list of
`cols`-buffer lengths passed to `computenzpattern`, in call order: the
first call is made with the buffer `np.zeros(1)` (length 1) to obtain
the required size `ncols`, the second with a buffer of length `ncols`.
`rowp` is the `np.zeros(nvars+1)` buffer as written by the second call;
`cols` keeps the first `rowp[-1]` entries of the second call's output.
`total_mass` is the mass kernel applied to `np.ones(nnodes)`.  The
filter matrix is `filterF d r0`. -/
def init {n : Nat} (K : Kernel n) (conn : List (List Nat))
    (vars : List (List Int)) (X : Fin n → ℚ × ℚ) (force : List ℚ)
    (r0 qval : ℚ) (Cm : List (List ℚ)) (d : Fin n → Fin n → ℚ) :
    PSState n × List Nat :=
  let nvars := nvarsOf vars
  let pass1 := K.computenzpattern conn vars 1
  let ncols := pass1.1
  let pass2 := K.computenzpattern conn vars ncols
  let rowp : List Int := (List.range (nvars + 1)).map pass2.2.1
  let colsTemp : List Int := (List.range ncols).map pass2.2.2
  let cols : List Int := colsTemp.take (rowp.getLastD 0).toNat
  ({ conn := conn
     vars := vars
     X := X
     force := force
     qval := qval
     Cmat := Cm
     nvars := nvars
     rowp := rowp
     cols := cols
     Kvals := List.replicate cols.length 0
     total_mass := K.computemass conn X (fun _ => 1)
     F := filterF d r0
     Kmat := ([], [], [])
     LU := id
     u := [] }, [1, ncols])

/-- `mass`: the mass kernel applied to the raw design vector `x`; the
method body assigns no field of `self`. -/
def mass {n : Nat} (K : Kernel n) (s : PSState n) (x : Fin n → ℚ) :
    ℚ × PSState n :=
  (K.computemass s.conn s.X x, s)

/-- `mass_grad`: the buffer `dmdx = np.zeros(x.shape)` is filled by
`computemassderiv` from connectivity and coordinates only; `x` itself is
never read, and no field of `self` is assigned. -/
def massGrad {n : Nat} (K : Kernel n) (s : PSState n) (_x : Fin n → ℚ) :
    (Fin n → ℚ) × PSState n :=
  (K.computemassderiv s.conn s.X, s)

/-- The `Kvals` written by `computekmat` inside `compliance`: the kernel
receives the filtered density `rho = F.dot(x)`. -/
def kmatVals {n : Nat} (K : Kernel n) (s : PSState n) (x : Fin n → ℚ) : List ℚ :=
  K.computekmat s.conn s.vars s.X s.qval s.Cmat (Fapply s.F x) s.rowp s.cols

/-- The matrix handed to `scipy.sparse.linalg.dsolve.factorized`: the
csr data `(Kvals, cols, rowp)` with shape `(nvars, nvars)`. -/
def assembleK {n : Nat} (K : Kernel n) (s : PSState n) (x : Fin n → ℚ) :
    List ℚ × List Int × List Int × Nat :=
  (kmatVals K s x, s.cols, s.rowp, s.nvars)

/-- `compliance`: filter the design vector, assemble the stiffness
matrix, factorize it, solve `K u = f`, cache `Kvals`, `Kmat`, `LU`, `u`,
and return `np.dot(force, u)`.  A raised factorization exception
propagates as `Except.error ()`. -/
def compliance {n : Nat} (K : Kernel n) (s : PSState n) (x : Fin n → ℚ) :
    Except Unit (ℚ × PSState n) :=
  match K.factorized (assembleK K s x) with
  | none => Except.error ()
  | some lu =>
      Except.ok (dotL s.force (lu s.force),
        { s with Kvals := kmatVals K s x
                 Kmat := (kmatVals K s x, s.cols, s.rowp)
                 LU := lu
                 u := lu s.force })

/-- `compliance_grad`: recompute `rho = F.dot(x)`, call
`computekmatderiv` with the cached displacement `self.u` passed twice
(primal and adjoint state), and return `-(F.T).dot(dKdrho)`; the method
body assigns no field of `self` and performs no factorization or
solve. -/
def complianceGrad {n : Nat} (K : Kernel n) (s : PSState n) (x : Fin n → ℚ) :
    (Fin n → ℚ) × PSState n :=
  let dKdrho := K.computekmatderiv s.conn s.vars s.X s.qval s.Cmat
    (Fapply s.F x) s.u s.u
  (fun i => -(∑ j, s.F j i * dKdrho j), s)

/-- `evalObjCon`: `fail = 0`; `obj = self.compliance(x)`;
`con = [0.4*self.total_mass - self.mass(x)]` (the float `0.4` is the
rational `2/5`).  An exception raised inside `compliance` propagates out
of the call. -/
def evalObjCon {n : Nat} (K : Kernel n) (s : PSState n) (x : Fin n → ℚ) :
    Except Unit (Nat × ℚ × List ℚ × PSState n) :=
  match compliance K s x with
  | Except.error e => Except.error e
  | Except.ok (obj, s1) =>
      Except.ok (0, obj, [(2 / 5 : ℚ) * s1.total_mass - (mass K s1 x).1],
        (mass K s1 x).2)

/-- `evalObjConGradient`: `fail = 0`; `g = self.compliance_grad(x)`;
`A[0] = -self.mass_grad(x)`. -/
def evalObjConGradient {n : Nat} (K : Kernel n) (s : PSState n)
    (x : Fin n → ℚ) : Nat × (Fin n → ℚ) × (Fin n → ℚ) × PSState n :=
  let g := complianceGrad K s x
  let a := massGrad K g.2 x
  (0, g.1, fun i => -(a.1 i), a.2)

/-! Concrete instances used to evaluate the development on explicit
inputs: a two-node mesh on the unit segment, its exact distance table,
and small kernels. -/

/-- Two nodes at (0,0) and (1,0). -/
def X2 : Fin 2 → ℚ × ℚ := fun i => if i = 0 then (0, 0) else (1, 0)

/-- The exact Euclidean distance table of `X2` (distances 0 and 1). -/
def d2 : Fin 2 → Fin 2 → ℚ := fun i j => if i = j then 0 else 1

/-- One element joining the two nodes. -/
def conn0 : List (List Nat) := [[0, 1]]

/-- One free DOF at node 0; node 1 constrained (sentinel -1). -/
def vars0 : List (List Int) := [[0], [-1]]

/-- Unit load on the single DOF. -/
def force0 : List ℚ := [1]

/-- A 1x1 constitutive block. -/
def C0 : List (List ℚ) := [[1]]

/-- A concrete kernel: one non-zero, unit stiffness entries, an identity
solve operator, mass = sum of densities. -/
def K0 : Kernel 2 where
  computenzpattern := fun _ _ _ => (1, fun _ => 1, fun _ => 0)
  computemass := fun _ _ rho => ∑ i, rho i
  computemassderiv := fun _ _ => fun _ => 1
  computekmat := fun _ _ _ _ _ _ _ cols => List.replicate cols.length 1
  computekmatderiv := fun _ _ _ _ _ rho u1 u2 => fun i => rho i * dotL u1 u2
  factorized := fun _ => some (fun f => f)

/-- `K0` with a factorization that raises (a singular matrix). -/
def K1 : Kernel 2 := { K0 with factorized := fun _ => none }

/-- `K0` with a pattern kernel reporting 5 non-zeros. -/
def K9 : Kernel 2 := { K0 with computenzpattern := fun _ _ _ => (5, fun _ => 1, fun _ => 0) }

/-- The all-ones design vector. -/
def xones : Fin 2 → ℚ := fun _ => 1

/-- Constructed evaluator state with r0 = 2 and kernel `K0`. -/
def s0c : PSState 2 := (init K0 conn0 vars0 X2 force0 2 3 C0 d2).1

/-- Constructed evaluator state with r0 = 0 (no rejection happens). -/
def s0z : PSState 2 := (init K0 conn0 vars0 X2 force0 0 3 C0 d2).1

/-- Constructed evaluator state whose kernel's factorization raises. -/
def s1c : PSState 2 := (init K1 conn0 vars0 X2 force0 2 3 C0 d2).1

/-- The (value, state) pair returned by the successful compliance call
on `s0c` with the all-ones design vector. -/
def cOk : ℚ × PSState 2 := ((compliance K0 s0c xones).toOption).getD (0, s0c)

/-- The (fail, obj, con, state) tuple returned by the successful
evalObjCon call on `s0c` with the all-ones design vector. -/
def eOk : Nat × ℚ × List ℚ × PSState 2 :=
  ((evalObjCon K0 s0c xones).toOption).getD (0, 0, [], s0c)

/-! Helper lemmas. -/

theorem rowW_nonneg {n : Nat} (d : Fin n → Fin n → ℚ) {r0 : ℚ}
    (hr : 0 < r0) (i j : Fin n) : 0 ≤ rowW d r0 i j := by
  unfold rowW
  by_cases h : d i j < r0
  · rw [if_pos h]
    exact div_nonneg (by linarith) (le_of_lt hr)
  · rw [if_neg h]

theorem sqrtDist_self {n : Nat} {X : Fin n → ℚ × ℚ} {d : Fin n → Fin n → ℚ}
    (hd : IsSqrtDist X d) (i : Fin n) : d i i = 0 := by
  have h := hd i i
  have h2 : dist2 X i i = 0 := by unfold dist2; ring
  have h3 : d i i * d i i = 0 := by rw [h.2, h2]
  exact mul_self_eq_zero.1 h3

theorem rowW_self {n : Nat} (d : Fin n → Fin n → ℚ) {r0 : ℚ}
    (hr : 0 < r0) {i : Fin n} (hii : d i i = 0) : rowW d r0 i i = 1 := by
  unfold rowW
  rw [hii, if_pos hr, sub_zero]
  exact div_self (ne_of_gt hr)

theorem rowSum_pos {n : Nat} {X : Fin n → ℚ × ℚ} {d : Fin n → Fin n → ℚ}
    {r0 : ℚ} (hr : 0 < r0) (hd : IsSqrtDist X d) (i : Fin n) :
    0 < rowSum d r0 i := by
  have h1 : rowW d r0 i i = 1 := rowW_self d hr (sqrtDist_self hd i)
  have h2 : rowW d r0 i i ≤ rowSum d r0 i := by
    unfold rowSum
    exact Finset.single_le_sum (fun j _ => rowW_nonneg d hr i j)
      (Finset.mem_univ i)
  rw [h1] at h2
  linarith

theorem filterF_nonneg {n : Nat} {X : Fin n → ℚ × ℚ} {d : Fin n → Fin n → ℚ}
    {r0 : ℚ} (hr : 0 < r0) (hd : IsSqrtDist X d) (i j : Fin n) :
    0 ≤ filterF d r0 i j :=
  div_nonneg (rowW_nonneg d hr i j) (le_of_lt (rowSum_pos hr hd i))

theorem filterF_row_sum_one {n : Nat} {X : Fin n → ℚ × ℚ}
    {d : Fin n → Fin n → ℚ} {r0 : ℚ} (hr : 0 < r0) (hd : IsSqrtDist X d)
    (i : Fin n) : ∑ j, filterF d r0 i j = 1 := by
  unfold filterF
  rw [← Finset.sum_div]
  have h : (∑ j, rowW d r0 i j) = rowSum d r0 i := rfl
  rw [h]
  exact div_self (ne_of_gt (rowSum_pos hr hd i))

theorem compliance_cases {n : Nat} (K : Kernel n) (s : PSState n)
    (x : Fin n → ℚ) (o : ℚ) (s1 : PSState n)
    (h : compliance K s x = Except.ok (o, s1)) :
    ∃ lu, K.factorized (assembleK K s x) = some lu ∧
      o = dotL s.force (lu s.force) ∧
      s1 = { s with Kvals := kmatVals K s x
                    Kmat := (kmatVals K s x, s.cols, s.rowp)
                    LU := lu
                    u := lu s.force } := by
  unfold compliance at h
  split at h
  · exact Except.noConfusion h
  · rename_i lu hf
    injection h with h1
    injection h1 with h2 h3
    subst h2
    subst h3
    exact ⟨lu, hf, rfl, rfl⟩

theorem compliance_none {n : Nat} (K : Kernel n) (s : PSState n)
    (x : Fin n → ℚ) (hf : K.factorized (assembleK K s x) = none) :
    compliance K s x = Except.error () := by
  unfold compliance
  rw [hf]

theorem evalObjCon_of_ok {n : Nat} (K : Kernel n) (s : PSState n)
    (x : Fin n → ℚ) (o : ℚ) (s1 : PSState n)
    (h : compliance K s x = Except.ok (o, s1)) :
    evalObjCon K s x =
      Except.ok (0, o, [(2 / 5 : ℚ) * s1.total_mass - (mass K s1 x).1],
        (mass K s1 x).2) := by
  unfold evalObjCon
  rw [h]

theorem evalObjCon_of_error {n : Nat} (K : Kernel n) (s : PSState n)
    (x : Fin n → ℚ) (h : compliance K s x = Except.error ()) :
    evalObjCon K s x = Except.error () := by
  unfold evalObjCon
  rw [h]

theorem take_range_len (f : Nat → Int) (m k : Nat) (h : k ≤ m) :
    (((List.range m).map f).take k).length = k := by
  rw [List.length_take, List.length_map, List.length_range]
  exact Nat.min_eq_left h

/-! Claim theorems. -/

/-- C1: every row of the filter matrix F built by the constructor has
non-negative entries that sum to 1 (exactly, in the rational model of
the float arithmetic), and no evaluator method modifies F, so every
later application of F — forward in compliance, transposed in
compliance_grad — uses a row-stochastic matrix. -/
theorem C1_filter_row_stochastic_immutable {n : Nat} (K : Kernel n)
    (conn : List (List Nat)) (vars : List (List Int)) (X : Fin n → ℚ × ℚ)
    (force : List ℚ) (r0 qval : ℚ) (Cm : List (List ℚ))
    (d : Fin n → Fin n → ℚ) (hr : 0 < r0) (hd : IsSqrtDist X d) :
    (∀ i j, 0 ≤ ((init K conn vars X force r0 qval Cm d).1).F i j) ∧
    (∀ i, ∑ j, ((init K conn vars X force r0 qval Cm d).1).F i j = 1) ∧
    (∀ (s : PSState n) (x : Fin n → ℚ),
      (mass K s x).2.F = s.F ∧ (massGrad K s x).2.F = s.F ∧
      (complianceGrad K s x).2.F = s.F ∧
      (∀ o s1, compliance K s x = Except.ok (o, s1) → s1.F = s.F) ∧
      (∀ f o c s1, evalObjCon K s x = Except.ok (f, o, c, s1) →
        s1.F = s.F)) := by
  have hF : ((init K conn vars X force r0 qval Cm d).1).F = filterF d r0 := rfl
  refine ⟨?_, ?_, ?_⟩
  · intro i j
    rw [hF]
    exact filterF_nonneg hr hd i j
  · intro i
    have h1 : ∀ j, ((init K conn vars X force r0 qval Cm d).1).F i j =
        filterF d r0 i j := fun j => by rw [hF]
    rw [Finset.sum_congr rfl (fun j _ => h1 j)]
    exact filterF_row_sum_one hr hd i
  · intro s x
    refine ⟨rfl, rfl, rfl, ?_, ?_⟩
    · intro o s1 h
      obtain ⟨lu, _, _, hs1⟩ := compliance_cases K s x o s1 h
      subst hs1
      rfl
    · intro f o c s1 h
      unfold evalObjCon at h
      split at h
      · exact Except.noConfusion h
      · rename_i obj s2 hc
        injection h with h1
        injection h1 with ha h2
        injection h2 with hb h3
        injection h3 with hc2 hs
        obtain ⟨lu, _, _, hs2⟩ := compliance_cases K s x obj s2 hc
        rw [← hs, hs2]
        rfl

/-- C2: the filter entry (i,j) is zero whenever the node distance is
at least r0; for a node within the radius the un-normalized weight is
(r0 - d)/r0 — so node i itself always contributes weight 1 before
normalization — and the row is divided by its weight sum, making it sum
to 1. -/
theorem C2_filter_locality_weight_formula {n : Nat} (K : Kernel n)
    (conn : List (List Nat)) (vars : List (List Int)) (X : Fin n → ℚ × ℚ)
    (force : List ℚ) (r0 qval : ℚ) (Cm : List (List ℚ))
    (d : Fin n → Fin n → ℚ) (hr : 0 < r0) (hd : IsSqrtDist X d) :
    (∀ i j, r0 ≤ d i j →
      ((init K conn vars X force r0 qval Cm d).1).F i j = 0) ∧
    (∀ i j, d i j < r0 →
      ((init K conn vars X force r0 qval Cm d).1).F i j =
        ((r0 - d i j) / r0) / rowSum d r0 i) ∧
    (∀ i, rowW d r0 i i = 1) ∧
    (∀ i, ∑ j, ((init K conn vars X force r0 qval Cm d).1).F i j = 1) := by
  have hF : ((init K conn vars X force r0 qval Cm d).1).F = filterF d r0 := rfl
  refine ⟨?_, ?_, ?_, ?_⟩
  · intro i j hij
    rw [hF]
    unfold filterF rowW
    rw [if_neg (not_lt.2 hij)]
    exact zero_div _
  · intro i j hij
    rw [hF]
    unfold filterF rowW
    rw [if_pos hij]
  · intro i
    exact rowW_self d hr (sqrtDist_self hd i)
  · intro i
    have h1 : ∀ j, ((init K conn vars X force r0 qval Cm d).1).F i j =
        filterF d r0 i j := fun j => by rw [hF]
    rw [Finset.sum_congr rfl (fun j _ => h1 j)]
    exact filterF_row_sum_one hr hd i

/-- C3: compliance_grad performs no linear solve — its result does not
depend on the factorization collaborator or the cached solve operator —
and for any cached displacement u (not re-verified against x) it passes
u as both state arguments of computekmatderiv and returns the per-node
derivative mapped through the filter transpose and negated. -/
theorem C3_compliance_grad_no_solve {n : Nat} (K : Kernel n)
    (s : PSState n) (x : Fin n → ℚ) :
    (complianceGrad K s x).1 = (fun i => -(∑ j, s.F j i *
      K.computekmatderiv s.conn s.vars s.X s.qval s.Cmat (Fapply s.F x)
        s.u s.u j)) ∧
    (complianceGrad K s x).2 = s ∧
    (∀ fact, complianceGrad { K with factorized := fact } s x =
      complianceGrad K s x) ∧
    (∀ lu, (complianceGrad K { s with LU := lu } x).1 =
      (complianceGrad K s x).1) :=
  ⟨rfl, rfl, fun _ => rfl, fun _ => rfl⟩

/-- C4: evalObjCon returns the objective compliance(x) and the single
constraint 0.4*total_mass - mass(x), where total_mass is set at
construction to the mass kernel applied to the all-ones density and is
preserved by every evaluator method. -/
theorem C4_evalObjCon_formula {n : Nat} (K : Kernel n)
    (conn : List (List Nat)) (vars : List (List Int)) (X : Fin n → ℚ × ℚ)
    (force : List ℚ) (r0 qval : ℚ) (Cm : List (List ℚ))
    (d : Fin n → Fin n → ℚ) :
    ((init K conn vars X force r0 qval Cm d).1).total_mass =
      K.computemass conn X (fun _ => 1) ∧
    (∀ (s : PSState n) (x : Fin n → ℚ),
      (mass K s x).2.total_mass = s.total_mass ∧
      (massGrad K s x).2.total_mass = s.total_mass ∧
      (complianceGrad K s x).2.total_mass = s.total_mass ∧
      (∀ o s1, compliance K s x = Except.ok (o, s1) →
        s1.total_mass = s.total_mass ∧
        evalObjCon K s x = Except.ok (0, o,
          [(2 / 5 : ℚ) * s.total_mass - (mass K s1 x).1],
          (mass K s1 x).2))) := by
  refine ⟨rfl, fun s x => ⟨rfl, rfl, rfl, ?_⟩⟩
  intro o s1 h
  obtain ⟨lu, hf, ho, hs1⟩ := compliance_cases K s x o s1 h
  have hm : s1.total_mass = s.total_mass := by rw [hs1]
  refine ⟨hm, ?_⟩
  have he := evalObjCon_of_ok K s x o s1 h
  rw [he, hm]

/-- C5 counterexample: with a kernel whose factorization raises (the
scipy behaviour on a singular matrix), evalObjCon propagates the
exception — Except.error — and returns no fail-flag triple at all, so
the failure is not reported via the fail flag. -/
theorem C5_cex : evalObjCon K1 s1c xones = Except.error () := rfl

/-- C5 amended: a factorization failure propagates as a raised exception
out of evalObjCon (no retry — the single factorization attempt decides
the outcome), and on every successful return the fail flag is the
constant 0, so the flag never reports a failure. -/
theorem C5_failure_is_exception {n : Nat} (K : Kernel n) (s : PSState n)
    (x : Fin n → ℚ) :
    (K.factorized (assembleK K s x) = none →
      evalObjCon K s x = Except.error ()) ∧
    (∀ f o c s1, evalObjCon K s x = Except.ok (f, o, c, s1) → f = 0) := by
  constructor
  · intro hf
    exact evalObjCon_of_error K s x (compliance_none K s x hf)
  · intro f o c s1 h
    unfold evalObjCon at h
    split at h
    · exact Except.noConfusion h
    · injection h with h1
      injection h1 with hf h2
      exact hf.symm

/-- C5 witness: a concrete failing factorization hits the exception
path of the amended theorem, and on a concrete successful evaluation
the fail flag is 0. -/
theorem C5_failure_is_exception_witness :
    (K1.factorized (assembleK K1 s1c xones) = none ∧
      evalObjCon K1 s1c xones = Except.error ()) ∧
    (evalObjCon K0 s0c xones =
        Except.ok (eOk.1, eOk.2.1, eOk.2.2.1, eOk.2.2.2) ∧
      eOk.1 = 0) :=
  ⟨⟨rfl, (C5_failure_is_exception K1 s1c xones).1 rfl⟩,
   ⟨rfl, (C5_failure_is_exception K0 s0c xones).2 eOk.1 eOk.2.1 eOk.2.2.1
      eOk.2.2.2 rfl⟩⟩

theorem filterF_zero_of_nonpos {n : Nat} {d : Fin n → Fin n → ℚ} {r0 : ℚ}
    (hr : r0 ≤ 0) {i j : Fin n} (hd0 : 0 ≤ d i j) : filterF d r0 i j = 0 := by
  unfold filterF rowW
  rw [if_neg]
  · exact zero_div _
  · intro hlt
    exact absurd (lt_of_lt_of_le hlt hr) (not_lt.2 hd0)

theorem isSqrtDist_X2_d2 : IsSqrtDist X2 d2 := by
  intro i j
  fin_cases i <;> fin_cases j <;>
    exact ⟨by norm_num [d2], by norm_num [d2, X2, dist2]⟩

/-- C6 counterexample: construction with filter radius r0 = 0 is not
rejected — it completes, the filter matrix of the produced evaluator is
identically zero, and the evaluator runs: evalObjCon succeeds. -/
theorem C6_cex :
    s0z.F 0 0 = 0 ∧ s0z.F 0 1 = 0 ∧ s0z.F 1 0 = 0 ∧ s0z.F 1 1 = 0 ∧
    (evalObjCon K0 s0z xones).isOk = true := by
  refine ⟨?_, ?_, ?_, ?_, rfl⟩ <;>
    exact filterF_zero_of_nonpos (le_refl 0) (by norm_num [d2])

/-- C6 amended: construction performs no input validation; with r0 ≤ 0
it completes and produces an evaluator whose filter matrix is
identically zero (every ball query is empty, so every row of weights is
empty and the row stays zero). -/
theorem C6_no_validation {n : Nat} (K : Kernel n) (conn : List (List Nat))
    (vars : List (List Int)) (X : Fin n → ℚ × ℚ) (force : List ℚ)
    (r0 qval : ℚ) (Cm : List (List ℚ)) (d : Fin n → Fin n → ℚ)
    (hr : r0 ≤ 0) (hd : IsSqrtDist X d) :
    ∀ i j, ((init K conn vars X force r0 qval Cm d).1).F i j = 0 := by
  intro i j
  have hF : ((init K conn vars X force r0 qval Cm d).1).F = filterF d r0 := rfl
  rw [hF]
  exact filterF_zero_of_nonpos hr (hd i j).1

/-- C6 witness: the amended theorem applied at the concrete r0 = 0
construction. -/
theorem C6_no_validation_witness :
    (0 : ℚ) ≤ 0 ∧ IsSqrtDist X2 d2 ∧
    (∀ i j, ((init K0 conn0 vars0 X2 force0 0 3 C0 d2).1).F i j = 0) :=
  ⟨le_refl 0, isSqrtDist_X2_d2,
   C6_no_validation K0 conn0 vars0 X2 force0 0 3 C0 d2 (le_refl 0)
     isSqrtDist_X2_d2⟩

/-- C7: mass is computed from the raw design vector handed directly to
the mass kernel — the filter F plays no role (changing F cannot change
the mass) — while compliance always assembles the stiffness matrix from
the filtered density F.dot(x). -/
theorem C7_mass_raw_compliance_filtered {n : Nat} (K : Kernel n)
    (s : PSState n) (x : Fin n → ℚ) :
    (mass K s x).1 = K.computemass s.conn s.X x ∧
    (∀ F2, (mass K { s with F := F2 } x).1 = (mass K s x).1) ∧
    (∀ o s1, compliance K s x = Except.ok (o, s1) →
      s1.Kvals = K.computekmat s.conn s.vars s.X s.qval s.Cmat
        (Fapply s.F x) s.rowp s.cols) := by
  refine ⟨rfl, fun _ => rfl, ?_⟩
  intro o s1 h
  obtain ⟨lu, hf, ho, hs1⟩ := compliance_cases K s x o s1 h
  rw [hs1]
  rfl

/-- C7 witness: a concrete successful compliance call exhibits the
filtered stiffness assembly. -/
theorem C7_mass_raw_compliance_filtered_witness :
    compliance K0 s0c xones = Except.ok (cOk.1, cOk.2) ∧
    cOk.2.Kvals = K0.computekmat s0c.conn s0c.vars s0c.X s0c.qval s0c.Cmat
      (Fapply s0c.F xones) s0c.rowp s0c.cols :=
  ⟨rfl,
   (C7_mass_raw_compliance_filtered K0 s0c xones).2.2 cOk.1 cOk.2 rfl⟩

/-- C8: mass_grad is constant in its argument: the derivative vector is
obtained from the kernel using connectivity and coordinates only, and
the value of x is never read. -/
theorem C8_mass_grad_constant {n : Nat} (K : Kernel n) (s : PSState n)
    (x1 x2 : Fin n → ℚ) :
    (massGrad K s x1).1 = (massGrad K s x2).1 ∧
    (massGrad K s x1).1 = K.computemassderiv s.conn s.X :=
  ⟨rfl, rfl⟩

/-- C9 counterexample: the constructor's first call to computenzpattern
passes the cols buffer np.zeros(1) — length 1, not zero-length: with a
kernel reporting 5 non-zeros the recorded buffer lengths are [1, 5],
and the first recorded length is not 0. -/
theorem C9_cex :
    (init K9 conn0 vars0 X2 force0 2 3 C0 d2).2 = [1, 5] ∧
    (init K9 conn0 vars0 X2 force0 2 3 C0 d2).2.headD 0 ≠ 0 :=
  ⟨rfl, by decide⟩

/-- C9 amended: the sparsity pattern is built by exactly two calls to
computenzpattern — the first with a length-one dummy buffer (np.zeros(1),
not zero-length), whose returned count ncols sizes the second call's
buffer.  rowp has length nvars+1 (#DOFs+1); cols keeps the first
rowp[-1] entries of the second call's buffer (exactly rowp[-1] of them
whenever rowp[-1] ≤ ncols); and the (rowp, cols) pair is never modified
by later evaluations. -/
theorem C9_two_pass_pattern {n : Nat} (K : Kernel n)
    (conn : List (List Nat)) (vars : List (List Int)) (X : Fin n → ℚ × ℚ)
    (force : List ℚ) (r0 qval : ℚ) (Cm : List (List ℚ))
    (d : Fin n → Fin n → ℚ) :
    (init K conn vars X force r0 qval Cm d).2 =
      [1, (K.computenzpattern conn vars 1).1] ∧
    ((init K conn vars X force r0 qval Cm d).1).rowp.length =
      nvarsOf vars + 1 ∧
    ((((init K conn vars X force r0 qval Cm d).1).rowp.getLastD 0).toNat ≤
        (K.computenzpattern conn vars 1).1 →
      ((init K conn vars X force r0 qval Cm d).1).cols.length =
        (((init K conn vars X force r0 qval Cm d).1).rowp.getLastD 0).toNat) ∧
    (∀ (s : PSState n) (x : Fin n → ℚ) o s1,
      compliance K s x = Except.ok (o, s1) →
      s1.rowp = s.rowp ∧ s1.cols = s.cols) ∧
    (∀ (s : PSState n) (x : Fin n → ℚ),
      (mass K s x).2.rowp = s.rowp ∧ (mass K s x).2.cols = s.cols ∧
      (massGrad K s x).2.rowp = s.rowp ∧ (massGrad K s x).2.cols = s.cols ∧
      (complianceGrad K s x).2.rowp = s.rowp ∧
      (complianceGrad K s x).2.cols = s.cols) := by
  refine ⟨rfl, ?_, ?_, ?_, fun s x => ⟨rfl, rfl, rfl, rfl, rfl, rfl⟩⟩
  · show ((List.range (nvarsOf vars + 1)).map
        (K.computenzpattern conn vars
          (K.computenzpattern conn vars 1).1).2.1).length = nvarsOf vars + 1
    rw [List.length_map, List.length_range]
  · intro hle
    exact take_range_len _ _ _ hle
  · intro s x o s1 h
    obtain ⟨lu, hf, ho, hs1⟩ := compliance_cases K s x o s1 h
    rw [hs1]
    exact ⟨rfl, rfl⟩

/-- C9 witness: the amended theorem applied to the concrete
construction, where rowp[-1] = 1 = ncols, plus a concrete successful
compliance call preserving the pattern. -/
theorem C9_two_pass_pattern_witness :
    ((((init K0 conn0 vars0 X2 force0 2 3 C0 d2).1).rowp.getLastD 0).toNat ≤
      (K0.computenzpattern conn0 vars0 1).1) ∧
    compliance K0 s0c xones = Except.ok (cOk.1, cOk.2) ∧
    ((init K0 conn0 vars0 X2 force0 2 3 C0 d2).1).cols.length =
      (((init K0 conn0 vars0 X2 force0 2 3 C0 d2).1).rowp.getLastD 0).toNat ∧
    cOk.2.rowp = s0c.rowp ∧ cOk.2.cols = s0c.cols :=
  ⟨by decide, rfl,
   (C9_two_pass_pattern K0 conn0 vars0 X2 force0 2 3 C0 d2).2.2.1
     (by decide),
   (C9_two_pass_pattern K0 conn0 vars0 X2 force0 2 3 C0 d2).2.2.2.1
     s0c xones cOk.1 cOk.2 rfl⟩

/-- C10: mass and mass_grad leave the evaluator state — filter, pattern,
total mass and the whole compliance cache — unchanged, so interleaving
them between compliance and compliance_grad cannot invalidate the cached
displacement the gradient relies on. -/
theorem C10_mass_frame {n : Nat} (K : Kernel n) (s : PSState n)
    (x y : Fin n → ℚ) :
    (mass K s x).2 = s ∧ (massGrad K s x).2 = s ∧
    complianceGrad K (mass K s x).2 y = complianceGrad K s y ∧
    complianceGrad K (massGrad K s x).2 y = complianceGrad K s y ∧
    compliance K (mass K s x).2 y = compliance K s y :=
  ⟨rfl, rfl, rfl, rfl, rfl⟩

/-- C1 witness: the row-stochasticity hypotheses hold at the concrete
two-node construction, its rows sum to 1, and a concrete successful
compliance call leaves F unchanged. -/
theorem C1_filter_row_stochastic_immutable_witness :
    (0 : ℚ) < 2 ∧ IsSqrtDist X2 d2 ∧
    (∀ i, ∑ j, ((init K0 conn0 vars0 X2 force0 2 3 C0 d2).1).F i j = 1) ∧
    cOk.2.F = s0c.F :=
  ⟨by norm_num, isSqrtDist_X2_d2,
   (C1_filter_row_stochastic_immutable K0 conn0 vars0 X2 force0 2 3 C0 d2
     (by norm_num) isSqrtDist_X2_d2).2.1,
   (((C1_filter_row_stochastic_immutable K0 conn0 vars0 X2 force0 2 3 C0 d2
     (by norm_num) isSqrtDist_X2_d2).2.2 s0c xones).2.2.2.1 cOk.1 cOk.2 rfl)⟩

/-- C2 witness: at the concrete two-node construction with r0 = 1, the
far node's entry vanishes, the near entry carries the normalized weight
(r0-d)/r0, and the self weight before normalization is 1. -/
theorem C2_filter_locality_weight_formula_witness :
    (0 : ℚ) < 1 ∧ IsSqrtDist X2 d2 ∧ (1 : ℚ) ≤ d2 0 1 ∧ d2 0 0 < 1 ∧
    ((init K0 conn0 vars0 X2 force0 1 3 C0 d2).1).F 0 1 = 0 ∧
    ((init K0 conn0 vars0 X2 force0 1 3 C0 d2).1).F 0 0 =
      ((1 - d2 0 0) / 1) / rowSum d2 1 0 ∧
    rowW d2 1 0 0 = 1 :=
  ⟨by norm_num, isSqrtDist_X2_d2, by norm_num [d2], by norm_num [d2],
   (C2_filter_locality_weight_formula K0 conn0 vars0 X2 force0 1 3 C0 d2
     (by norm_num) isSqrtDist_X2_d2).1 0 1 (by norm_num [d2]),
   (C2_filter_locality_weight_formula K0 conn0 vars0 X2 force0 1 3 C0 d2
     (by norm_num) isSqrtDist_X2_d2).2.1 0 0 (by norm_num [d2]),
   (C2_filter_locality_weight_formula K0 conn0 vars0 X2 force0 1 3 C0 d2
     (by norm_num) isSqrtDist_X2_d2).2.2.1 0⟩

/-- C4 witness: at the concrete construction, a successful compliance
call yields the stated objective/constraint tuple with the preserved
construction-time total mass. -/
theorem C4_evalObjCon_formula_witness :
    compliance K0 s0c xones = Except.ok (cOk.1, cOk.2) ∧
    cOk.2.total_mass = s0c.total_mass ∧
    evalObjCon K0 s0c xones = Except.ok (0, cOk.1,
      [(2 / 5 : ℚ) * s0c.total_mass - (mass K0 cOk.2 xones).1],
      (mass K0 cOk.2 xones).2) :=
  ⟨rfl,
   (((C4_evalObjCon_formula K0 conn0 vars0 X2 force0 2 3 C0 d2).2
       s0c xones).2.2.2 cOk.1 cOk.2 rfl).1,
   (((C4_evalObjCon_formula K0 conn0 vars0 X2 force0 2 3 C0 d2).2
       s0c xones).2.2.2 cOk.1 cOk.2 rfl).2⟩
